import Mathlib

/-!
# Verification of the jobflow-agent extraction pipeline

Shallow embedding of the `shared/extraction` package of the jobflow-agent
repository (files `bs4_extractor.py`, `pii_filter.py`, `robots_checker.py`,
`pipeline.py`, `llm_extractor.py`, `quality_check.py`), followed by theorems
settling the specification claims.

Modelling conventions:
* Python `float` confidences are modelled as `ℚ`; the pipeline only ever
  assigns constants and takes `max`/`min`, so no rounding behaviour is lost.
* Python strings are modelled as Lean `String` restricted to ASCII content
  (`\w`, `\s`, case folding are embedded for the ASCII range).
* The external libraries (`requests`, BeautifulSoup document queries,
  `trafilatura`, the Gemini client, `urllib.robotparser`) are modelled as
  oracle inputs: a `Soup` record holds the results of the document queries
  the source performs, and a `FetchEnv` record holds the outcomes of the
  network and inference calls.  The repository's own decision logic over
  those outcomes is embedded function by function.
* Python `re` is embedded by a backtracking matcher (`reMatch`) over an
  item-list representation of each concrete pattern appearing in the source;
  all quantifiers in those patterns range over single-character classes.
-/

set_option maxRecDepth 20000

namespace JobFlow

/-! ## Data model (`bs4_extractor.py`) -/

/-- Sentinel title, `DEFAULT_TITLE` in `bs4_extractor.py`. -/
def DEFAULT_TITLE : String := "Unknown Title"

/-- Sentinel company, `DEFAULT_COMPANY` in `bs4_extractor.py`. -/
def DEFAULT_COMPANY : String := "Unknown"

/-- ASCII fragment of Python's `\s`. -/
def isPySpace (c : Char) : Bool :=
  c == ' ' || c == '\t' || c == '\n' || c == '\x0b' || c == '\x0c' || c == '\r'

/-- Python `str.strip()`: drop leading and trailing whitespace. -/
def pyStrip (s : String) : String :=
  String.mk (((s.data.dropWhile isPySpace).reverse.dropWhile isPySpace).reverse)

/-- Python `str.lower()` for ASCII strings. -/
def pyLower (s : String) : String := String.mk (s.data.map Char.toLower)

/-- Split a character list at every occurrence of `sep` (like
`str.split(sep)` for a one-character separator). -/
def splitOnChar (sep : Char) : List Char → List (List Char)
  | [] => [[]]
  | c :: rest =>
      match splitOnChar sep rest with
      | [] => if c == sep then [[], []] else [[c]]
      | piece :: pieces => if c == sep then [] :: piece :: pieces else (c :: piece) :: pieces

/-- The `ExtractionResult` dataclass of `bs4_extractor.py`. -/
structure ExtractionResult where
  title : String
  company : String
  location : Option String
  salary : Option String
  description : Option String
  source : String := "bs4"
  deriving Repr, DecidableEq

/-- `ExtractionResult.is_complete`: essential fields are present
(`pyStrip` models Python `str.strip()`). -/
def ExtractionResult.is_complete (r : ExtractionResult) : Bool :=
  (r.title != DEFAULT_TITLE) && (r.company != DEFAULT_COMPANY) &&
    (pyStrip r.title != "") && (pyStrip r.company != "")

/-! ## A backtracking matcher for the concrete `re` patterns of the source

Every quantifier in the source's patterns ranges over a single-character
class, so a pattern is a sequence of items: a character class with a
`{lo,hi}` quantifier (`hi = none` meaning unbounded), an alternation of
item sequences, an optional item sequence, or a word-boundary assertion.
Matching is greedy with backtracking, exactly the strategy of CPython's
`re`; all the source's substitutions use `re.IGNORECASE`, so literal
characters are embedded as case-insensitive singleton classes. -/

/-- One item of an embedded regular expression. -/
inductive RItem where
  | cls (p : Char → Bool) (lo : Nat) (hi : Option Nat)
  | grp (alts : List (List RItem))
  | opt (items : List RItem)
  | wb

/-- ASCII fragment of Python's `\w` (the inputs considered are ASCII). -/
def isWordChar (c : Char) : Bool := c.isAlpha || c.isDigit || c == '_'

/-- Python's `\b`: the characters on the two sides of the current position
(`prev` is the character just before it) disagree on wordness. -/
def wordBoundary (prev : Option Char) (s : List Char) : Bool :=
  (match prev with | none => false | some c => isWordChar c) !=
    (match s with | [] => false | c :: _ => isWordChar c)

/-- Backtracking matcher in continuation-passing style.  `prev` is the
character immediately before the current position (for `\b`), `k` receives
the position after the items; the first success in greedy priority order is
returned, matching CPython's leftmost-greedy semantics.  `fuel` bounds the
recursion depth; the wrappers below supply more fuel than any run of the
embedded patterns can consume. -/
def reMatch {α : Type} : Nat → List RItem → Option Char → List Char →
    (Option Char → List Char → Option α) → Option α
  | 0, _, _, _, _ => none
  | _ + 1, [], prev, s, k => k prev s
  | fuel + 1, .wb :: rest, prev, s, k =>
      if wordBoundary prev s then reMatch fuel rest prev s k else none
  | fuel + 1, .grp alts :: rest, prev, s, k =>
      (alts.map fun alt => reMatch fuel (alt ++ rest) prev s k).findSome? id
  | fuel + 1, .opt items :: rest, prev, s, k =>
      reMatch fuel (items ++ rest) prev s k <|> reMatch fuel rest prev s k
  | fuel + 1, .cls p (lo + 1) hi :: rest, _, s, k =>
      match s with
      | c :: s' =>
          if p c then reMatch fuel (.cls p lo (hi.map (· - 1)) :: rest) (some c) s' k
          else none
      | [] => none
  | fuel + 1, .cls p 0 hi :: rest, prev, s, k =>
      if hi == some 0 then reMatch fuel rest prev s k
      else
        (match s with
         | c :: s' =>
             if p c then reMatch fuel (.cls p 0 (hi.map (· - 1)) :: rest) (some c) s' k
             else none
         | [] => none) <|> reMatch fuel rest prev s k

/-- Scan of `re.sub`: find each leftmost non-overlapping match in the
original string and splice in the replacement.  Matching contexts (`\b`)
always come from the original characters, as in CPython.  An empty match
advances by one character (the embedded patterns cannot match empty). -/
def reSubScan (fuel : Nat) (pat : List RItem) (repl : List Char) :
    Nat → Option Char → List Char → List Char
  | 0, _, s => s
  | n + 1, prev, s =>
      match reMatch fuel pat prev s (fun prev' rest => some (prev', rest)) with
      | some (prev', rest) =>
          if rest.length == s.length then
            match s with
            | [] => []
            | c :: s' => c :: reSubScan fuel pat repl n (some c) s'
          else repl ++ reSubScan fuel pat repl n prev' rest
      | none =>
          match s with
          | [] => []
          | c :: s' => c :: reSubScan fuel pat repl n (some c) s'

/-- Fuel that dominates the recursion depth of `reMatch` on `s`. -/
def reFuel (s : List Char) : Nat := (s.length + 64) * 64

/-- `re.sub(pat, repl, s)` for an embedded pattern. -/
def pyReSub (pat : List RItem) (repl : String) (s : String) : String :=
  String.mk (reSubScan (reFuel s.data) pat repl.data (s.data.length + 1) none s.data)

/-- `re.match(pat, s)` viewed as a Boolean (anchored at the start). -/
def pyReMatch (pat : List RItem) (s : String) : Bool :=
  (reMatch (reFuel s.data) pat none s.data fun _ _ => some ()).isSome

/-- Inner scan of `re.search`: first position with a match; returns the
matched text. -/
def reSearchScan (fuel : Nat) (pat : List RItem) :
    Nat → Option Char → List Char → Option (List Char)
  | 0, _, _ => none
  | n + 1, prev, s =>
      match reMatch fuel pat prev s (fun _ rest => some rest) with
      | some rest => some (s.take (s.length - rest.length))
      | none =>
          match s with
          | [] => none
          | c :: s' => reSearchScan fuel pat n (some c) s'

/-- `re.search(pat, s)` returning `match.group(0)`. -/
def pyReSearch (pat : List RItem) (s : String) : Option String :=
  (reSearchScan (reFuel s.data) pat (s.data.length + 1) none s.data).map String.mk

/-! Pattern-building helpers.  All source patterns are compiled or applied
with `re.IGNORECASE`, so literal letters are case-insensitive classes. -/

/-- Case-insensitive literal character. -/
def litCI (c : Char) : RItem := .cls (fun x => x.toLower == c.toLower) 1 (some 1)

/-- Case-insensitive literal string. -/
def strCI (s : String) : List RItem := s.data.map litCI

/-- A class with an exact repetition count. -/
def clsN (p : Char → Bool) (n : Nat) : RItem := .cls p n (some n)

/-- An optional single character. -/
def optC (c : Char) : RItem := .cls (fun x => x.toLower == c.toLower) 0 (some 1)

/-- `[A-Z]` / `[a-z]` under `re.IGNORECASE`: any ASCII letter. -/
def alphaCI (c : Char) : Bool := c.isAlpha

/-- `.` (any character but a newline). -/
def dotAny : RItem := .cls (fun c => c != '\n') 0 none

/-- `\s+`. -/
def spacePlus : RItem := .cls isPySpace 1 none

/-- `\s*`. -/
def spaceStar : RItem := .cls isPySpace 0 none

/-! ## `pii_filter.py` -/

/-- `[-.\s]` separator class of the phone patterns. -/
def phoneSep (c : Char) : Bool := c == '-' || c == '.' || isPySpace c

/-- Local part class `[A-Za-z0-9._%+-]` of the email pattern. -/
def emailLocalChar (c : Char) : Bool :=
  c.isAlpha || c.isDigit || c == '.' || c == '_' || c == '%' || c == '+' || c == '-'

/-- Domain class `[A-Za-z0-9.-]` of the email pattern. -/
def emailDomainChar (c : Char) : Bool := c.isAlpha || c.isDigit || c == '.' || c == '-'

/-- Top-level-domain class `[A-Z|a-z]` of the email pattern (the literal
`|` really is part of the class in the source). -/
def emailTldChar (c : Char) : Bool := c.isAlpha || c == '|'

/-- `\b[A-Za-z0-9._%+-]+@[A-Za-z0-9.-]+\.[A-Z|a-z]{2,}\b`. -/
def emailPat : List RItem :=
  [.wb, .cls emailLocalChar 1 none, litCI '@', .cls emailDomainChar 1 none,
   litCI '.', .cls emailTldChar 2 none, .wb]

/-- `\b(?:\+?1[-.\s]?)?\(?\d{3}\)?[-.\s]?\d{3}[-.\s]?\d{4}\b`. -/
def usPhonePat : List RItem :=
  [.wb, .opt [optC '+', litCI '1', .cls phoneSep 0 (some 1)],
   optC '(', clsN Char.isDigit 3, optC ')', .cls phoneSep 0 (some 1),
   clsN Char.isDigit 3, .cls phoneSep 0 (some 1), clsN Char.isDigit 4, .wb]

/-- `\b(?:\+44|0)\s?\d{2,4}\s?\d{3,4}\s?\d{3,4}\b`. -/
def ukPhonePat : List RItem :=
  [.wb, .grp [strCI "+44", strCI "0"], .cls isPySpace 0 (some 1),
   .cls Char.isDigit 2 (some 4), .cls isPySpace 0 (some 1),
   .cls Char.isDigit 3 (some 4), .cls isPySpace 0 (some 1),
   .cls Char.isDigit 3 (some 4), .wb]

/-- `\b\+\d{1,3}[-.\s]?\d{1,4}[-.\s]?\d{1,4}[-.\s]?\d{1,9}\b`. -/
def intlPhonePat : List RItem :=
  [.wb, litCI '+', .cls Char.isDigit 1 (some 3), .cls phoneSep 0 (some 1),
   .cls Char.isDigit 1 (some 4), .cls phoneSep 0 (some 1),
   .cls Char.isDigit 1 (some 4), .cls phoneSep 0 (some 1),
   .cls Char.isDigit 1 (some 9), .wb]

/-- Handle class `[A-Za-z0-9_-]` of the LinkedIn pattern. -/
def linkedinChar (c : Char) : Bool := c.isAlpha || c.isDigit || c == '_' || c == '-'

/-- `linkedin\.com/in/[A-Za-z0-9_-]+/?`. -/
def linkedinPat : List RItem :=
  strCI "linkedin.com/in/" ++ [.cls linkedinChar 1 none, optC '/']

/-- `@[A-Za-z0-9_]{3,}`. -/
def handlePat : List RItem := [litCI '@', .cls isWordChar 3 none]

/-- `PII_PATTERNS` of `pii_filter.py`, in source order. -/
def PII_PATTERNS : List (List RItem × String) :=
  [(emailPat, "[EMAIL]"), (usPhonePat, "[PHONE]"), (ukPhonePat, "[PHONE]"),
   (intlPhonePat, "[PHONE]"), (linkedinPat, "[LINKEDIN]"), (handlePat, "[HANDLE]")]

/-- First contact-line pattern of `CONTACT_LINE_PATTERNS` (the anchoring
`^` is realised by `re.match`; the trailing `$` after `.*` never rejects a
newline-free line and is dropped). -/
def contactPat1 : List RItem :=
  [.opt (strCI "for" ++ [spacePlus])] ++ strCI "question" ++ [optC 's', optC ','] ++
    [spacePlus, .opt (strCI "please" ++ [spacePlus]),
     .grp [strCI "feel" ++ [spacePlus] ++ strCI "free" ++ [spacePlus] ++ strCI "to",
           strCI "contact",
           strCI "reach" ++ [spacePlus] ++ strCI "out" ++ [spacePlus] ++ strCI "to",
           strCI "email"],
     spacePlus, clsN alphaCI 1, .cls alphaCI 1 none, dotAny]

/-- Second contact-line pattern. -/
def contactPat2 : List RItem :=
  [spaceStar,
   .grp [strCI "contact", strCI "recruiter",
         strCI "hiring" ++ [spacePlus] ++ strCI "manager",
         strCI "point" ++ [spacePlus] ++ strCI "of" ++ [spacePlus] ++ strCI "contact"],
   spaceStar, litCI ':', spaceStar, clsN alphaCI 1, dotAny]

/-- Third contact-line pattern. -/
def contactPat3 : List RItem :=
  [.opt (strCI "please" ++ [spacePlus]),
   .grp [strCI "apply",
         strCI "send" ++ [spacePlus, .opt (strCI "your" ++ [spacePlus]),
           .grp [strCI "resume", strCI "cv", strCI "application"]]],
   spacePlus] ++ strCI "to" ++ [spacePlus, clsN alphaCI 1, .cls alphaCI 1 none, dotAny]

/-- `CONTACT_LINE_PATTERNS` of `pii_filter.py`. -/
def CONTACT_LINE_PATTERNS : List (List RItem) := [contactPat1, contactPat2, contactPat3]

/-- Python `str.splitlines` restricted to `\n` separators: no trailing
empty line is produced and the empty string yields no lines. -/
def pySplitlines (s : String) : List String :=
  if s = "" then []
  else
    let parts := (splitOnChar '\n' s.data).map String.mk
    if parts.getLast? = some "" then parts.dropLast else parts

/-- `_remove_contact_lines` of `pii_filter.py`. -/
def removeContactLines (text : String) : String :=
  String.intercalate "\n"
    ((pySplitlines text).filter fun line =>
      !(CONTACT_LINE_PATTERNS.any fun pat => pyReMatch pat line))

/-- `filter_pii` of `pii_filter.py`: drop contact lines, then apply the six
substitutions in order (falsy input, `None` or `""`, is returned as is). -/
def filter_pii : Option String → Option String
  | none => none
  | some text =>
      if text = "" then some text
      else
        some (PII_PATTERNS.foldl
          (fun acc pr => pyReSub pr.1 pr.2 acc) (removeContactLines text))

/-- `filter_pii_from_result` of `pii_filter.py`. -/
def filter_pii_from_result (r : ExtractionResult) : ExtractionResult :=
  { title := r.title
    company := r.company
    location := r.location
    salary := r.salary
    description := filter_pii r.description
    source := r.source }

/-! ## `urllib.parse.urlparse` (the fields the source reads) -/

/-- Scheme characters accepted by `urllib.parse` after the leading letter. -/
def isSchemeChar (c : Char) : Bool := c.isAlpha || c.isDigit || c == '+' || c == '-' || c == '.'

/-- The `scheme`/`netloc` pair of a parsed URL. -/
structure PyUrl where
  scheme : String
  netloc : String
  deriving Repr, DecidableEq

/-- `urllib.parse.urlparse`, restricted to the `scheme` and `netloc`
fields (the only ones the source reads): a valid scheme prefix before the
first `:` is split off and lowercased; a netloc follows `//` and extends to
the first `/`, `?` or `#`. -/
def pyUrlparse (url : String) : PyUrl :=
  let cs := url.data
  let (scheme, rest) :=
    match cs.findIdx? (· == ':') with
    | some i =>
        let sch := cs.take i
        if 0 < i && (match sch with | c :: rs => c.isAlpha && rs.all isSchemeChar | [] => false)
        then (pyLower (String.mk sch), cs.drop (i + 1))
        else ("", cs)
    | none => ("", cs)
  let netloc :=
    match rest with
    | '/' :: '/' :: tl => String.mk (tl.takeWhile fun c => c != '/' && c != '?' && c != '#')
    | _ => ""
  ⟨scheme, netloc⟩

/-- The `hostname` accessor of a parsed URL: strip the userinfo after the
last `@`, then either the bracketed IPv6 literal or the part before the
first `:`, lowercased; an empty host is `None`. -/
def pyHostname (netloc : String) : Option String :=
  let afterUser := ((splitOnChar '@' netloc.data).getLastD [])
  let host :=
    match afterUser with
    | '[' :: tl => String.mk (tl.takeWhile (· != ']'))
    | cs => String.mk (cs.takeWhile (· != ':'))
  if host = "" then none else some (pyLower host)

/-! ## `pipeline.py`: URL safety validator -/

/-- `blocked_hosts` of `pipeline._is_valid_url`. -/
def blocked_hosts : List String := ["localhost", "127.0.0.1", "0.0.0.0", "::1"]

/-- `_is_valid_url` of `pipeline.py`: scheme and netloc must be present,
the scheme must be http or https, and the hostname must not be a
loopback/wildcard host (a missing hostname is not blocked). -/
def _is_valid_url (url : String) : Bool :=
  let parsed := pyUrlparse url
  if parsed.scheme = "" || parsed.netloc = "" then false
  else if !(parsed.scheme = "http" || parsed.scheme = "https") then false
  else
    match pyHostname parsed.netloc with
    | some h => !(blocked_hosts.contains h)
    | none => true

/-! ## `robots_checker.py` -/

/-- The parse result of a fetched `robots.txt` (the `RobotFileParser`
rule set is external: it is modelled by its `can_fetch` oracle). -/
structure RuleSet where
  canFetch : String → String → Bool

/-- Outcome of the `requests.get` on a robots.txt URL: a response with a
status code (whose body parses to `rules` when consulted), or a raised
`RequestException`. -/
inductive RobotsFetch where
  | resp (status : Nat) (rules : RuleSet)
  | exn

/-- `USER_AGENT` of `robots_checker.py`. -/
def ROBOTS_USER_AGENT : String := "JobflowBot/1.0"

/-- `_fetch_robots_txt`: status 200 parses the body; 404/410 mean "no
robots.txt"; any other status and any transport error also yield `None`
(the `lru_cache` only affects how often the network is consulted, never
the value, so it is not modelled). -/
def _fetch_robots_txt (robots : String → RobotsFetch) (robots_url : String) :
    Option RuleSet :=
  match robots robots_url with
  | .resp status rules =>
      if status = 200 then some rules
      else if status = 404 || status = 410 then none
      else none
  | .exn => none

/-- `get_robots_url` of `robots_checker.py`. -/
def get_robots_url (url : String) : String :=
  let parsed := pyUrlparse url
  parsed.scheme ++ "://" ++ parsed.netloc ++ "/robots.txt"

/-- `is_allowed` of `robots_checker.py`: allow whenever no rule set was
obtained, otherwise defer to the parsed rules. -/
def robots_is_allowed (robots : String → RobotsFetch) (url : String)
    (user_agent : String) : Bool :=
  match _fetch_robots_txt robots (get_robots_url url) with
  | none => true
  | some rp => rp.canFetch user_agent url

/-! ## JSON values (outputs of `json.loads`) -/

/-- JSON values as produced by `json.loads` (numbers restricted to the
integers appearing in job-posting structured data). -/
inductive Json where
  | null
  | bool (b : Bool)
  | num (n : Int)
  | str (s : String)
  | arr (items : List Json)
  | obj (fields : List (String × Json))
  deriving Repr

/-- `dict.get(key)` (first binding wins, as keys are unique). -/
def Json.get : Json → String → Option Json
  | .obj fields, key => (fields.find? fun f => f.1 == key).map Prod.snd
  | _, _ => none

/-- Python truthiness of a JSON value. -/
def Json.truthy : Json → Bool
  | .null => false
  | .bool b => b
  | .num n => n != 0
  | .str s => s != ""
  | .arr items => !items.isEmpty
  | .obj fields => !fields.isEmpty

/-- Truthiness of `d.get(key)` (a missing key is `None`, hence falsy). -/
def Json.getTruthy (j : Json) (key : String) : Bool :=
  match j.get key with
  | some v => v.truthy
  | none => false

/-- Python `str()` of a JSON value (the claims only exercise the string
and integer cases). -/
def Json.pyStr : Json → String
  | .null => "None"
  | .bool true => "True"
  | .bool false => "False"
  | .num n => toString n
  | .str s => s
  | .arr _ => "[...]"
  | .obj _ => "..."

/-- Python `f"{n:,}"` for a natural number: thousands separators. -/
def commaGroupNat (n : Nat) : String :=
  let ds := (toString n).data
  let rec regroup : List Char → Nat → List Char
    | [], _ => []
    | c :: rest, k => (if k % 3 == 0 && k != 0 then [',', c] else [c]) ++ regroup rest (k + 1)
  String.mk ((regroup ds.reverse 0).reverse)

/-- Python `f"{n:,}"` for an integer. -/
def pyFormatComma (n : Int) : String :=
  if n < 0 then "-" ++ commaGroupNat n.natAbs else commaGroupNat n.natAbs

/-- The uncaught Python exceptions the embedded code can raise. -/
inductive PyErr where
  | typeError
  | valueError
  deriving Repr, DecidableEq

/-- `isinstance(v, str)`. -/
def Json.isStr : Json → Bool
  | .str _ => true
  | _ => false

/-- Python `format(v, ",")` on a JSON value: thousands-separated for the
numbers (and for booleans, which are `int` subclasses — `True` formats as
`1`), while a string raises an uncaught `ValueError` and a list, dict or
`None` an uncaught `TypeError`, modelled as `.error`. -/
def fmtComma : Json → Except PyErr String
  | .num n => .ok (pyFormatComma n)
  | .bool b => .ok (if b then "1" else "0")
  | .str _ => .error .valueError
  | _ => .error .typeError

/-! ## The parsed document (`BeautifulSoup` query results)

`BeautifulSoup`, `trafilatura` and `json.loads` are external libraries;
the record below holds the results of exactly the queries
`bs4_extractor.py` performs on a document, and the extractor's own logic
over those results is embedded below it. -/

/-- Results of the document queries performed by `bs4_extractor.py`. -/
structure Soup where
  /-- Parsed contents of each `<script type="application/ld+json">` block,
  `none` where `json.loads` raises. -/
  jsonLdScripts : List (Option Json) := []
  /-- `content` of `<meta property="og:title">` when the tag exists. -/
  ogTitle : Option String := none
  /-- `soup.title.string` when present. -/
  titleTag : Option String := none
  /-- `content` of `<meta property="og:site_name">`. -/
  ogSiteName : Option String := none
  /-- `content` of `<meta name="company">`. -/
  metaCompany : Option String := none
  /-- `content` of `<meta name="author">`. -/
  metaAuthor : Option String := none
  /-- `content` of `<meta name="twitter:site">`. -/
  twitterSite : Option String := none
  /-- `str()` of the `data-company` attribute of the first element carrying
  it, when one exists. -/
  dataCompany : Option String := none
  /-- `get_text(strip=True)` of the first element whose class matches the
  given pattern case-insensitively (`soup.find(attrs={"class": ...})`). -/
  classText : String → Option String := fun _ => none
  /-- `content` of `<meta name="location">`. -/
  metaLocation : Option String := none
  /-- `content` of `<meta property="place:location">`. -/
  placeLocation : Option String := none
  /-- `soup.get_text()` of the whole document. -/
  pageText : String := ""
  /-- `get_text(separator="\n", strip=True)` of `soup.select_one(sel)`. -/
  selectText : String → Option String := fun _ => none
  /-- `trafilatura.extract(raw_html, include_comments=False,
  include_tables=False)`. -/
  trafilatura : Option String := none

/-- `data.get("@type") == "JobPosting"` as a Boolean. -/
def typeIsJobPosting (j : Json) : Bool :=
  match j.get "@type" with
  | some (.str s) => s == "JobPosting"
  | _ => false

/-- `isinstance(item, dict) and item.get("@type") == "JobPosting"`. -/
def isJobPosting (item : Json) : Bool :=
  match item with
  | .obj _ => typeIsJobPosting item
  | _ => false

/-- `_parse_json_ld`: the first `JobPosting` object found among the JSON-LD
scripts, looking inside top-level arrays and `@graph` containers. -/
def _parse_json_ld (soup : Soup) : Option Json :=
  soup.jsonLdScripts.findSome? fun script =>
    match script with
    | none => none
    | some data =>
        match data with
        | .arr items => items.find? isJobPosting
        | .obj _ =>
            if typeIsJobPosting data then some data
            else
              match data.get "@graph" with
              | some (.arr items) => items.find? isJobPosting
              | _ => none
        | _ => none

/-- Page-`<title>` fallback of `_extract_title`. -/
def _extract_title_tag (soup : Soup) : String :=
  match soup.titleTag with
  | some t => if t != "" then pyStrip t else DEFAULT_TITLE
  | none => DEFAULT_TITLE

/-- `og:title` fallback of `_extract_title`. -/
def _extract_title_meta (soup : Soup) : String :=
  match soup.ogTitle with
  | some content => if content != "" then pyStrip content else _extract_title_tag soup
  | none => _extract_title_tag soup

/-- `_extract_title`: JSON-LD title, else `og:title`, else the page
`<title>`, else the sentinel. -/
def _extract_title (soup : Soup) (json_ld : Option Json) : String :=
  match json_ld with
  | some j =>
      if j.getTruthy "title" then pyStrip ((j.get "title").getD .null).pyStr
      else _extract_title_meta soup
  | none => _extract_title_meta soup

/-- `_extract_company`: JSON-LD `hiringOrganization` (object or bare
string), else the ordered meta-tag keys (skipping a bare `"@"`), else a
`data-company` attribute, else the sentinel. -/
def _extract_company (soup : Soup) (json_ld : Option Json) : String :=
  let fromJson : Option String :=
    match json_ld with
    | some j =>
        match j.get "hiringOrganization" with
        | some (.obj fields) =>
            if (Json.obj fields).getTruthy "name"
            then some (pyStrip (((Json.obj fields).get "name").getD .null).pyStr)
            else none
        | some (.str s) => some (pyStrip s)
        | _ => none
    | none => none
  match fromJson with
  | some c => c
  | none =>
      let metas := [soup.ogSiteName, soup.metaCompany, soup.metaAuthor, soup.twitterSite]
      let fromMeta := metas.findSome? fun node =>
        match node with
        | some content =>
            if content != "" then
              let c := pyStrip content
              if c != "" && c != "@" then some c else none
            else none
        | none => none
      match fromMeta with
      | some c => c
      | none =>
          match soup.dataCompany with
          | some v => pyStrip v
          | none => DEFAULT_COMPANY

/-- `_location_from_place`: join the truthy locality/region/country parts
of a `Place`'s address with `", "`.  The join (`", ".join(p for p in parts
if p)`, bs4_extractor.py line 132) requires every kept part to be a
string: a truthy non-string part makes it raise an uncaught `TypeError`,
modelled as `.error`. -/
def _location_from_place (place : Json) : Except PyErr (Option String) :=
  match place.get "address" with
  | some (.obj fields) =>
      let addr := Json.obj fields
      let parts := [addr.get "addressLocality", addr.get "addressRegion",
                    addr.get "addressCountry"]
      let kept := parts.filterMap fun p =>
        match p with
        | some v => if v.truthy then some v else none
        | none => none
      if kept.any fun v => ! v.isStr then .error .typeError
      else
        let location := String.intercalate ", " (kept.map Json.pyStr)
        if location != "" then .ok (some location) else .ok none
  | some _ => .ok none
  | none =>
      -- `place.get("address", {})` defaults to an empty dict, whose
      -- join is empty.
      .ok none

/-- The class patterns tried by `_extract_location`. -/
def location_patterns : List String := ["location", "job-location", "jobLocation", "job_location"]

/-- The loop over a `jobLocation` array: each dict place goes through
`_location_from_place` (the first raise aborts the loop) and the truthy
results are collected in order. -/
def locationsFromPlaces : List Json → Except PyErr (List String)
  | [] => .ok []
  | place :: rest =>
      match place with
      | .obj _ =>
          match _location_from_place place with
          | .error e => .error e
          | .ok (some loc) =>
              match locationsFromPlaces rest with
              | .error e => .error e
              | .ok locs => .ok (loc :: locs)
          | .ok none => locationsFromPlaces rest
      | _ => locationsFromPlaces rest

/-- `_extract_location`: JSON-LD `jobLocation` (array of places joined by
`"; "`, single place, or bare string), else class-pattern texts under 200
characters, else location meta tags.  A raise inside `_location_from_place`
propagates. -/
def _extract_locationE (soup : Soup) (json_ld : Option Json) : Except PyErr (Option String) :=
  let fromJson : Except PyErr (Option String) :=
    match json_ld with
    | some j =>
        match j.get "jobLocation" with
        | some (.arr places) =>
            match locationsFromPlaces places with
            | .error e => .error e
            | .ok locations =>
                if !locations.isEmpty then .ok (some (String.intercalate "; " locations))
                else .ok none
        | some (.obj fields) => _location_from_place (Json.obj fields)
        | some (.str s) => .ok (some (pyStrip s))
        | _ => .ok none
    | none => .ok none
  match fromJson with
  | .error e => .error e
  | .ok (some l) => .ok (some l)
  | .ok none =>
      let fromClass := location_patterns.findSome? fun pattern =>
        match soup.classText pattern with
        | some text => if text != "" && text.length < 200 then some text else none
        | none => none
      match fromClass with
      | some l => .ok (some l)
      | none =>
          .ok ([soup.metaLocation, soup.placeLocation].findSome? fun node =>
            match node with
            | some content => if content != "" then some (pyStrip content) else none
            | none => none)

/-- `_extract_location` on the documents where it does not raise; its value
on a raising document is never consulted — `extract_with_bs4_error` below
reports the raise and the pipeline embedding aborts the run first. -/
def _extract_location (soup : Soup) (json_ld : Option Json) : Option String :=
  match _extract_locationE soup json_ld with
  | .ok v => v
  | .error _ => none

/-! ## Salary extraction (`_extract_salary`) -/

/-- `[\d,]` class. -/
def digitComma (c : Char) : Bool := c.isDigit || c == ','

/-- `[-–]` class (hyphen or en dash). -/
def hyphenDash (c : Char) : Bool := c == '-' || c == '–'

/-- `\$[\d,]+(?:\s*[-–]\s*\$[\d,]+)?(?:\s*(?:per|/|a)\s*(?:year|yr|annum|hour|hr))?`. -/
def dollarSalaryPat : List RItem :=
  [litCI '$', .cls digitComma 1 none,
   .opt [spaceStar, .cls hyphenDash 1 (some 1), spaceStar, litCI '$', .cls digitComma 1 none],
   .opt [spaceStar, .grp [strCI "per", strCI "/", strCI "a"], spaceStar,
         .grp [strCI "year", strCI "yr", strCI "annum", strCI "hour", strCI "hr"]]]

/-- `£[\d,]+(?:\s*[-–]\s*£[\d,]+)?(?:\s*(?:per|/|a)\s*(?:year|annum))?`. -/
def poundSalaryPat : List RItem :=
  [litCI '£', .cls digitComma 1 none,
   .opt [spaceStar, .cls hyphenDash 1 (some 1), spaceStar, litCI '£', .cls digitComma 1 none],
   .opt [spaceStar, .grp [strCI "per", strCI "/", strCI "a"], spaceStar,
         .grp [strCI "year", strCI "annum"]]]

/-- `€[\d,]+(?:\s*[-–]\s*€[\d,]+)?(?:\s*(?:per|/|a)\s*(?:year|annum))?`. -/
def euroSalaryPat : List RItem :=
  [litCI '€', .cls digitComma 1 none,
   .opt [spaceStar, .cls hyphenDash 1 (some 1), spaceStar, litCI '€', .cls digitComma 1 none],
   .opt [spaceStar, .grp [strCI "per", strCI "/", strCI "a"], spaceStar,
         .grp [strCI "year", strCI "annum"]]]

/-- `salary_patterns` of `_extract_salary`, in source order. -/
def salary_patterns : List (List RItem) := [dollarSalaryPat, poundSalaryPat, euroSalaryPat]

/-- The class patterns of the salary class-name fallback. -/
def salary_class_patterns : List String := ["salary", "compensation", "pay"]

/-- `re.search(r"[\d$£€]", text)` viewed as a Boolean. -/
def hasSalaryChar (text : String) : Bool :=
  text.data.any fun c => c.isDigit || c == '$' || c == '£' || c == '€'

/-- The JSON-LD branch of `_extract_salary`: format `baseSalary` as
`"{currency} {min:,} - {max:,} / {unit}"`, degrading when only the lower
bound or a bare number is present.  The f-string formats the truthy
bounds left to right with `fmtComma` (bs4_extractor.py line 191): a
string-valued bound raises an uncaught `ValueError`, a list- or
dict-valued one an uncaught `TypeError`, modelled as `.error`; `.ok none`
is the fall-through to the regex and class fallbacks. -/
def salaryFromJson (j : Json) : Except PyErr (Option String) :=
  match j.get "baseSalary" with
  | some (.obj fields) =>
      let base := Json.obj fields
      let value := (base.get "value").getD (.obj [])
      let currency := match base.get "currency" with
        | some c => c.pyStr
        | none => ""
      match value with
      | .obj _ =>
          let min_val := (value.get "minValue").getD .null
          let max_val := (value.get "maxValue").getD .null
          let unit := match value.get "unitText" with
            | some u => u.pyStr
            | none => "YEAR"
          if min_val.truthy && max_val.truthy then
            match fmtComma min_val with
            | .error e => .error e
            | .ok mns =>
                match fmtComma max_val with
                | .error e => .error e
                | .ok mxs =>
                    .ok (some (pyStrip (currency ++ " " ++ mns ++ " - " ++ mxs ++
                      " / " ++ unit)))
          else if min_val.truthy then
            match fmtComma min_val with
            | .error e => .error e
            | .ok mns => .ok (some (pyStrip (currency ++ " " ++ mns ++ " / " ++ unit)))
          else .ok none
      | .num n => .ok (some (pyStrip (currency ++ " " ++ pyFormatComma n)))
      | .bool b => .ok (some (pyStrip (currency ++ " " ++ (if b then "1" else "0"))))
      | _ => .ok none
  | _ => .ok none

/-- The non-JSON-LD part of `_extract_salary`: a currency-prefixed regex
over the page text, else salary-class texts (under 100 characters and
containing a digit or currency symbol). -/
def salaryFallback (soup : Soup) : Option String :=
  let fromRegex := salary_patterns.findSome? fun pat =>
    (pyReSearch pat soup.pageText).map pyStrip
  match fromRegex with
  | some s => some s
  | none =>
      salary_class_patterns.findSome? fun pattern =>
        match soup.classText pattern with
        | some text =>
            if text != "" && text.length < 100 && hasSalaryChar text
            then some text else none
        | none => none

/-- `_extract_salary`: JSON-LD `baseSalary` (whose raise on a truthy
non-numeric bound propagates), else the regex and class fallbacks. -/
def _extract_salaryE (soup : Soup) (json_ld : Option Json) : Except PyErr (Option String) :=
  match json_ld with
  | some j =>
      match salaryFromJson j with
      | .error e => .error e
      | .ok (some s) => .ok (some s)
      | .ok none => .ok (salaryFallback soup)
  | none => .ok (salaryFallback soup)

/-- `_extract_salary` on the documents where it does not raise; its value
on a raising document is never consulted — `extract_with_bs4_error` below
reports the raise and the pipeline embedding aborts the run first. -/
def _extract_salary (soup : Soup) (json_ld : Option Json) : Option String :=
  match _extract_salaryE soup json_ld with
  | .ok v => v
  | .error _ => none

/-! ## Description extraction (`_clean_description`, `_extract_description`) -/

/-- `html.unescape` restricted to the named/numeric entities relevant to
job descriptions; other text passes through unchanged. -/
def pyHtmlUnescape (s : String) : String :=
  let rec go : List Char → List Char
    | [] => []
    | '&' :: 'a' :: 'm' :: 'p' :: ';' :: rest => '&' :: go rest
    | '&' :: 'l' :: 't' :: ';' :: rest => '<' :: go rest
    | '&' :: 'g' :: 't' :: ';' :: rest => '>' :: go rest
    | '&' :: 'q' :: 'u' :: 'o' :: 't' :: ';' :: rest => '"' :: go rest
    | '&' :: '#' :: '3' :: '9' :: ';' :: rest => '\'' :: go rest
    | '&' :: 'n' :: 'b' :: 's' :: 'p' :: ';' :: rest => ' ' :: go rest
    | c :: rest => c :: go rest
  String.mk (go s.data)

/-- Model of `BeautifulSoup(text).get_text(separator="\n", strip=True)`
used by `_clean_description` when tags are present: each markup span
`<...>` becomes a line separator (the subsequent line cleanup strips and
drops blank lines, as in the source). -/
def stripTagsModel (s : String) : String :=
  let rec go (inTag : Bool) : List Char → List Char
    | [] => []
    | c :: rest =>
        if inTag then (if c == '>' then go false rest else go true rest)
        else if c == '<' then '\n' :: go true rest
        else c :: go false rest
  String.mk (go false s.data)

/-- The final step of `_clean_description`: `text[:10000] if text else ""`. -/
def truncate10000 (text : String) : String :=
  if text != "" then String.mk (text.data.take 10000) else ""

/-- `_clean_description`: unescape entities, strip tags when present,
collapse to non-blank trimmed lines, truncate to 10,000 characters. -/
def _clean_description (text : String) : String :=
  let text := pyHtmlUnescape text
  let text := if text.data.contains '<' then stripTagsModel text else text
  let lines := (pySplitlines text).map pyStrip
  let text := String.intercalate "\n" (lines.filter fun line => line != "")
  truncate10000 text

/-- The CSS selectors tried by `_extract_description`, in source order. -/
def description_selectors : List String :=
  ["[class*='job-description']", "[class*='jobDescription']", "[class*='description']",
   "[id*='job-description']", "[id*='description']", "article", "[role='main']", "main"]

/-- `if desc: return desc` over a cleaned description. -/
def someIfNonEmpty (desc : String) : Option String :=
  if desc != "" then some desc else none

/-- `if len(text) > 200: return text` over a cleaned description. -/
def someIfLong (text : String) : Option String :=
  if text.length > 200 then some text else none

/-- Strategy 1 of `_extract_description`: the JSON-LD description. -/
def descFromJson (json_ld : Option Json) : Option String :=
  match json_ld with
  | some j =>
      if j.getTruthy "description" then
        someIfNonEmpty (_clean_description ((j.get "description").getD .null).pyStr)
      else none
  | none => none

/-- Strategy 2 of `_extract_description`: the first selector whose cleaned
text exceeds 200 characters. -/
def descFromSelectors (soup : Soup) : Option String :=
  description_selectors.findSome? fun sel =>
    match soup.selectText sel with
    | some raw => someIfLong (_clean_description raw)
    | none => none

/-- Strategy 3 of `_extract_description`: `trafilatura` content extraction
(the raw-html argument is always truthy at the call sites). -/
def descFromTrafilatura (soup : Soup) : Option String :=
  match soup.trafilatura with
  | some extracted =>
      if extracted != "" && extracted.length > 200
      then some (_clean_description extracted) else none
  | none => none

/-- `_extract_description`: the three strategies in source order. -/
def _extract_description (soup : Soup) (json_ld : Option Json) : Option String :=
  match descFromJson json_ld with
  | some d => some d
  | none =>
      match descFromSelectors soup with
      | some d => some d
      | none => descFromTrafilatura soup

/-- `extract_with_bs4` of `bs4_extractor.py` (it takes the HTML text as its
single argument; the parsed-document queries are the `Soup` oracles). -/
def extract_with_bs4 (soup : Soup) : ExtractionResult :=
  let json_ld := _parse_json_ld soup
  { title := _extract_title soup json_ld
    company := _extract_company soup json_ld
    location := _extract_location soup json_ld
    salary := _extract_salary soup json_ld
    description := _extract_description soup json_ld
    source := "bs4" }

/-- The uncaught exception `extract_with_bs4` raises on a document, if
any.  The `ExtractionResult(...)` keyword arguments are evaluated in
source order — title, company, location, salary, description — so a
location raise surfaces before a salary raise; title, company and
description extraction are total (they pass every JSON value through
Python `str()`). -/
def extract_with_bs4_error (soup : Soup) : Option PyErr :=
  let json_ld := _parse_json_ld soup
  match _extract_locationE soup json_ld with
  | .error e => some e
  | .ok _ =>
      match _extract_salaryE soup json_ld with
      | .error e => some e
      | .ok _ => none

/-! ## `llm_extractor.py` -/

/-- The `ExtractionResult` that `extract_with_llm` builds from a
successfully parsed JSON response (`data.get(...) or sentinel` for title
and company; `data.get(...)` verbatim — in particular without any length
cap on the description — for the other fields). -/
def llmResultOfJson (data : Json) : ExtractionResult :=
  let optField (key : String) : Option String :=
    match data.get key with
    | some .null => none
    | some v => some v.pyStr
    | none => none
  { title := match data.get "title" with
      | some v => if v.truthy then v.pyStr else DEFAULT_TITLE
      | none => DEFAULT_TITLE
    company := match data.get "company" with
      | some v => if v.truthy then v.pyStr else DEFAULT_COMPANY
      | none => DEFAULT_COMPANY
    location := optField "location"
    salary := optField "salary"
    description := optField "description"
    source := "llm" }

/-! ## `pipeline.py`: the orchestrator -/

/-- The `ExtractionMetrics` dataclass of `pipeline.py` (the literal values
of `fetch_method` are `"requests"`/`"playwright"`, of `extraction_method`
`"bs4"`/`"llm"`). -/
structure ExtractionMetrics where
  fetch_method : String
  extraction_method : String
  validation_run : Bool
  confidence : ℚ
  fallbacks_used : Nat
  deriving Repr, DecidableEq

/-- The source's confidence constants as exact rationals (written as
reduced `Rat` structure literals so the kernel can evaluate them; the
Python floats 0.8, 0.3, 0.75, 0.4, 0.7 and 0.5 denote the same values). -/
def conf08 : ℚ := ⟨4, 5, by decide, by decide⟩

/-- 0.3. -/
def conf03 : ℚ := ⟨3, 10, by decide, by decide⟩

/-- 0.75. -/
def conf075 : ℚ := ⟨3, 4, by decide, by decide⟩

/-- 0.4. -/
def conf04 : ℚ := ⟨2, 5, by decide, by decide⟩

/-- 0.7. -/
def conf07 : ℚ := ⟨7, 10, by decide, by decide⟩

/-- 0.5. -/
def confHalf : ℚ := ⟨1, 2, by decide, by decide⟩

/-- 1.5 (an out-of-range validator report). -/
def confThreeHalves : ℚ := ⟨3, 2, by decide, by decide⟩

/-- The metrics value every path starts from. -/
def initMetrics : ExtractionMetrics :=
  { fetch_method := "requests", extraction_method := "bs4", validation_run := false,
    confidence := 0, fallbacks_used := 0 }

/-- The option flags of `extract_job`, with the source's default values. -/
structure ExtractOptions where
  use_playwright : Bool := true
  use_llm_fallback : Bool := true
  use_llm_validation : Bool := true
  apply_pii_filter : Bool := true
  check_robots : Bool := true
  deriving Repr, DecidableEq

/-- `extract_job`'s defaults, as they appear in its signature. -/
def defaultExtractOptions : ExtractOptions := {}

/-- The defaults of the API-service wrapper `scrape_and_store_job`
(`jobflow_api/services/scraper.py`), which disables LLM validation. -/
def scraperDefaultOptions : ExtractOptions :=
  { use_llm_validation := false }

/-- Outcomes of the external calls a single `extract_job` run can make.
A fetched HTML document is represented by its parsed `Soup`; `none` covers
both a raised/handled fetch failure and a falsy (empty) body.  `llm` is
the result of `_extract_with_llm` (`none` on any failure; the oracle is
typed, so its fields are the strings the dataclass carries on), `validator`
the pair `_validate_with_llm` returns (it is total: both it and
`validate_extraction` fail open to `(True, 0.5)`). -/
structure FetchEnv where
  primary : Option Soup
  rendered : Option Soup
  llm : Option ExtractionResult := none
  validator : Bool × ℚ := (true, confHalf)
  robots : String → RobotsFetch := fun _ => .exn

/-- Equality of pipeline outcomes is decidable. -/
instance exceptDecEq {ε α : Type} [DecidableEq ε] [DecidableEq α] :
    DecidableEq (Except ε α) := fun x y =>
  match x, y with
  | .ok a, .ok b =>
      if h : a = b then .isTrue (by rw [h]) else .isFalse (by simp [h])
  | .error a, .error b =>
      if h : a = b then .isTrue (by rw [h]) else .isFalse (by simp [h])
  | .ok _, .error _ => .isFalse (by simp)
  | .error _, .ok _ => .isFalse (by simp)

/-- One `extract_job` run: the returned pair (or the exception that
escaped), together with the number of page-fetch attempts made (robots.txt
requests are not page fetches). -/
structure PipelineRun where
  outcome : Except PyErr (Option ExtractionResult × ExtractionMetrics)
  pageFetches : Nat

/-- `extract_job` of `pipeline.py`, embedded as the source stands.  The
source invokes `extract_with_bs4(html, url)` with two arguments, while
`extract_with_bs4(html)` accepts exactly one, so whenever a fetch yields
content the call raises `TypeError` (`extract_with_bs4() takes 1
positional argument but 2 were given`), which nothing in `extract_job`
catches. -/
def extract_job (env : FetchEnv) (opts : ExtractOptions) (url : String) : PipelineRun :=
  if !(_is_valid_url url) then
    { outcome := .ok (none, initMetrics), pageFetches := 0 }
  else if opts.check_robots && !(robots_is_allowed env.robots url ROBOTS_USER_AGENT) then
    { outcome := .ok (none, initMetrics), pageFetches := 0 }
  else
    -- Step 1: fetch with requests.
    let html := env.primary
    match html with
    | some _ =>
        -- Step 2: `result = extract_with_bs4(html, url)` raises TypeError.
        { outcome := .error .typeError, pageFetches := 1 }
    | none =>
        -- Step 2 is skipped (`if html:`), so `result` stays `None` and the
        -- escalation condition of step 3 holds.
        if opts.use_playwright then
          match env.rendered with
          | some _ =>
              -- The same two-argument call raises inside the step-3 branch.
              { outcome := .error .typeError, pageFetches := 2 }
          | none =>
              -- Steps 4–6 are all skipped: there is no HTML and no result.
              { outcome := .ok (none, { initMetrics with fallbacks_used := 1 })
                pageFetches := 2 }
        else
          { outcome := .ok (none, initMetrics), pageFetches := 1 }

/-- `result.is_complete()` guarded by `result`'s truthiness. -/
def optComplete : Option ExtractionResult → Bool
  | some r => r.is_complete
  | none => false

/-- The first uncaught exception a run of the repaired pipeline raises,
with the number of page fetches made by then: a raise while parsing the
primary document aborts step 2, and — when the primary parse succeeded but
escalation applies — a raise while parsing the rendered document aborts
step 3.  Nothing in `extract_job` catches either. -/
def intendedParseError (env : FetchEnv) (opts : ExtractOptions) : Option (PyErr × Nat) :=
  match env.primary with
  | some soup =>
      match extract_with_bs4_error soup with
      | some e => some (e, 1)
      | none =>
          if opts.use_playwright && !(optComplete (some (extract_with_bs4 soup))) then
            match env.rendered with
            | some ph => (extract_with_bs4_error ph).map fun e => (e, 2)
            | none => none
          else none
  | none =>
      if opts.use_playwright then
        match env.rendered with
        | some ph => (extract_with_bs4_error ph).map fun e => (e, 2)
        | none => none
      else none

/-- Steps 1–2 of the intended pipeline: the structured parse of the
primary fetch. -/
def primaryParse (env : FetchEnv) : Option ExtractionResult :=
  env.primary.map extract_with_bs4

/-- The confidence the source assigns after the primary parse
(`0.8` complete, `0.3` incomplete, untouched `0.0` without content). -/
def primaryConfidence (result : Option ExtractionResult) : ℚ :=
  match result with
  | some r => if r.is_complete then conf08 else conf03
  | none => 0

/-- The pipeline state after step 3. -/
structure Stage3Out where
  fm : String
  html : Option Soup
  result : Option ExtractionResult
  conf : ℚ
  fb : Nat
  fetches : Nat

/-- Step 3 of `extract_job` (intended form): the Playwright fallback when
there is no HTML or the result is missing or incomplete;
`fallbacks_used` is incremented as soon as the fallback is attempted. -/
def stage3 (env : FetchEnv) (opts : ExtractOptions) : Stage3Out :=
  let html := env.primary
  let result := primaryParse env
  let conf := primaryConfidence result
  if opts.use_playwright && (html.isNone || !(optComplete result)) then
    match env.rendered with
    | some ph =>
        let r2 := extract_with_bs4 ph
        ⟨"playwright", some ph, some r2, if r2.is_complete then conf075 else conf04, 1, 2⟩
    | none => ⟨"requests", html, result, conf, 1, 2⟩
  else ⟨"requests", html, result, conf, 0, 1⟩

/-- The pipeline state after step 4. -/
structure Stage4Out where
  result : Option ExtractionResult
  em : String
  conf : ℚ
  fb : Nat

/-- Step 4 of `extract_job` (intended form): LLM extraction when HTML is
present and the result is still missing or incomplete; only a complete
LLM result replaces the structured one (and sets confidence 0.7), but the
fallback counter always increments once attempted. -/
def stage4 (env : FetchEnv) (opts : ExtractOptions) (s : Stage3Out) : Stage4Out :=
  if opts.use_llm_fallback && s.html.isSome && !(optComplete s.result) then
    match env.llm with
    | some llm_result =>
        if llm_result.is_complete then ⟨some llm_result, "llm", conf07, s.fb + 1⟩
        else ⟨s.result, "bs4", s.conf, s.fb + 1⟩
    | none => ⟨s.result, "bs4", s.conf, s.fb + 1⟩
  else ⟨s.result, "bs4", s.conf, s.fb⟩

/-- Step 5 of `extract_job` (intended form): LLM validation of a complete
result — approval raises confidence to `max(current, validator)`,
rejection caps it at `min(current, 0.4)`; the returned flag records that
validation ran. -/
def stage5conf (env : FetchEnv) (opts : ExtractOptions)
    (result : Option ExtractionResult) (conf : ℚ) : ℚ × Bool :=
  if opts.use_llm_validation && optComplete result then
    (if env.validator.1 then max conf env.validator.2 else min conf conf04, true)
  else (conf, false)

/-- `extract_job` as the source's own tests and callers intend it — the
pipeline of `pipeline.py` with the extractor invoked as
`extract_with_bs4(html)`, matching the extractor's signature.  Used to
settle the claims about the stages the arity error makes unreachable.  A
document on which the structured parser itself raises (`intendedParseError`)
aborts the run with that exception — nothing in `extract_job` catches
it. -/
def extract_job_intended (env : FetchEnv) (opts : ExtractOptions) (url : String) :
    PipelineRun :=
  if !(_is_valid_url url) then
    { outcome := .ok (none, initMetrics), pageFetches := 0 }
  else if opts.check_robots && !(robots_is_allowed env.robots url ROBOTS_USER_AGENT) then
    { outcome := .ok (none, initMetrics), pageFetches := 0 }
  else match intendedParseError env opts with
  | some pe => { outcome := .error pe.1, pageFetches := pe.2 }
  | none =>
    let s3 := stage3 env opts
    let s4 := stage4 env opts s3
    let s5 := stage5conf env opts s4.result s4.conf
    -- Step 6: PII filtering, then the final source tag.
    let result6 :=
      if opts.apply_pii_filter && s4.result.isSome
      then s4.result.map filter_pii_from_result else s4.result
    let final := result6.map fun r => { r with source := s3.fm ++ "+" ++ s4.em }
    { outcome := .ok (final,
        { fetch_method := s3.fm, extraction_method := s4.em, validation_run := s5.2,
          confidence := s5.1, fallbacks_used := s4.fb })
      pageFetches := s3.fetches }

/-! ## The confidence table of spec §4.9

The `spec…` definitions below restate the specification's stage-transition
table in the spec's own terms, to be compared with the pipeline: a
structured parse scores 0.8 complete / 0.3 incomplete; after a secondary
fetch that returned content, 0.75 / 0.4; a successful LLM extraction
yielding a complete result scores 0.7; validation raises the score to
`max(current, validator confidence)` on approval and caps it at
`min(current, 0.4)` on rejection; the terminal failures and the
no-content path score 0.0. -/

/-- The spec's score and best result after the parse stages: the
secondary-fetch parse when an escalation happened and returned content,
else the primary parse, else nothing. -/
def specAfterParse (env : FetchEnv) (opts : ExtractOptions) : ℚ × Option ExtractionResult :=
  let primaryResult := env.primary.map extract_with_bs4
  let escalated := opts.use_playwright && !(optComplete primaryResult)
  let secondaryResult := if escalated then env.rendered.map extract_with_bs4 else none
  match secondaryResult with
  | some r2 => (if r2.is_complete then conf075 else conf04, some r2)
  | none =>
      match primaryResult with
      | some r1 => (if r1.is_complete then conf08 else conf03, some r1)
      | none => (0, none)

/-- Whether any HTML is available after the fetch stages. -/
def specHtmlPresent (env : FetchEnv) (opts : ExtractOptions) : Bool :=
  env.primary.isSome ||
    ((opts.use_playwright && !(optComplete (env.primary.map extract_with_bs4))) &&
      env.rendered.isSome)

/-- The spec's score and best result after the conditional LLM stage. -/
def specAfterLLM (env : FetchEnv) (opts : ExtractOptions) : ℚ × Option ExtractionResult :=
  match specAfterParse env opts with
  | (c, parsed) =>
      if opts.use_llm_fallback && specHtmlPresent env opts && !(optComplete parsed) then
        match env.llm with
        | some lr => if lr.is_complete then (conf07, some lr) else (c, parsed)
        | none => (c, parsed)
      else (c, parsed)

/-- The confidence the spec's stage-transition table prescribes for a
run. -/
def specTableConfidence (env : FetchEnv) (opts : ExtractOptions) (url : String) : ℚ :=
  if !(_is_valid_url url) then 0
  else if opts.check_robots && !(robots_is_allowed env.robots url ROBOTS_USER_AGENT) then 0
  else
    match specAfterLLM env opts with
    | (c, finalResult) =>
        if opts.use_llm_validation && optComplete finalResult then
          if env.validator.1 then max c env.validator.2 else min c conf04
        else c

/-! ## Concrete inputs used by the theorems -/

/-- The parsed JSON-LD block of spec §8 Scenario A. -/
def jsonA : Json := .obj [
  ("@type", .str "JobPosting"),
  ("title", .str "Software Engineer"),
  ("hiringOrganization", .obj [("@type", .str "Organization"), ("name", .str "TechCorp Inc")]),
  ("jobLocation", .obj [("@type", .str "Place"),
    ("address", .obj [("addressLocality", .str "San Francisco"), ("addressRegion", .str "CA")])]),
  ("baseSalary", .obj [("currency", .str "USD"),
    ("value", .obj [("minValue", .num 150000), ("maxValue", .num 200000),
                    ("unitText", .str "YEAR")])]),
  ("description", .str "We are looking for a talented engineer to join our team.")]

/-- A Scenario A document: one complete `JobPosting` JSON-LD block. -/
def soupA : Soup := { jsonLdScripts := [some jsonA] }

/-- Scenario A environment: the primary fetch returns the document; the
robots.txt request fails (which `is_allowed` treats as allowed). -/
def envA : FetchEnv := { primary := some soupA, rendered := none }

/-- Scenario A options: secondary fetch, LLM fallback and LLM validation
disabled. -/
def optsA : ExtractOptions :=
  { use_playwright := false, use_llm_fallback := false, use_llm_validation := false }

/-- Scenario A URL. -/
def urlA : String := "https://example.com/jobs/software-engineer"

/-- The result Scenario A prescribes (source tag `requests+bs4`). -/
def resultA : ExtractionResult :=
  { title := "Software Engineer", company := "TechCorp Inc",
    location := some "San Francisco, CA", salary := some "USD 150,000 - 200,000 / YEAR",
    description := some "We are looking for a talented engineer to join our team.",
    source := "requests+bs4" }

/-- An environment whose primary fetch returns an empty document. -/
def envB : FetchEnv := { primary := some {}, rendered := none }

/-- A second valid job URL. -/
def urlB : String := "https://example.com/jobs/1"

/-- The result the intended pipeline returns for `envB` under default
options: sentinel fields from the empty document. -/
def resultB : ExtractionResult :=
  { title := DEFAULT_TITLE, company := DEFAULT_COMPANY,
    location := none, salary := none, description := none,
    source := "requests+bs4" }

/-- A rule set that disallows everything. -/
def denyAllRules : RuleSet := ⟨fun _ _ => false⟩

/-- An environment whose robots.txt parses to a rule set denying the
agent. -/
def envDeny : FetchEnv :=
  { primary := some soupA, rendered := none, robots := fun _ => .resp 200 denyAllRules }

/-- Idempotence counterexample input: a US-format phone number directly
followed by a LinkedIn profile URL. -/
def piiS0 : String := "555-123-4567linkedin.com/in/x"

/-- One pass over `piiS0`: the adjoining letter suppresses the phone
pattern's trailing word boundary, so only the URL is replaced. -/
def piiS1 : String := "555-123-4567[LINKEDIN]"

/-- A second pass also replaces the now-exposed phone number. -/
def piiS2 : String := "[PHONE][LINKEDIN]"

/-- A text consisting of the four substitution tokens. -/
def piiTokens : String := "[EMAIL] [PHONE] [LINKEDIN] [HANDLE]"

/-- A 10,001-character description. -/
def longDescription : String := String.mk (List.replicate 10001 'a')

/-- The LLM extractor's result for a parsed response carrying
`longDescription`: no truncation is applied. -/
def llmLongResult : ExtractionResult :=
  llmResultOfJson (.obj [("title", .str "Engineer"), ("company", .str "ACME"),
    ("description", .str longDescription)])

/-- Environment for the description-cap counterexample: the primary fetch
returns an empty document (incomplete structured result) and the LLM stage
returns `llmLongResult`. -/
def envL : FetchEnv := { primary := some {}, rendered := none, llm := some llmLongResult }

/-- Options for the description-cap counterexample (no rendering, no
validation; PII filtering off, which only affects the description text,
not its length bound's violation). -/
def optsL : ExtractOptions :=
  { use_playwright := false, use_llm_validation := false, apply_pii_filter := false }

/-- Environment for the confidence-bound counterexample: a complete
structured result and a validator that approves with confidence 1.5. -/
def envV : FetchEnv := { primary := some soupA, rendered := none, validator := (true, confThreeHalves) }

/-- Options enabling only the validation stage. -/
def optsV : ExtractOptions :=
  { use_playwright := false, use_llm_fallback := false, use_llm_validation := true }

/-- Environment for the confidence-table witness: validator confidence
0.5. -/
def envW : FetchEnv := { primary := some soupA, rendered := none, validator := (true, confHalf) }

/-- Whether a result's description is absent or within the 10,000-character
cap. -/
def descLenOk (r : ExtractionResult) : Bool :=
  match r.description with
  | none => true
  | some d => d.length ≤ 10000

/-- The confidence of a run's returned metrics, when the run returns. -/
def metricsConfidence (run : PipelineRun) : Option ℚ :=
  match run.outcome with
  | .ok (_, m) => some m.confidence
  | .error _ => none

/-! # Theorems settling the claims -/

/-- C4: `is_complete` holds iff the title differs from the sentinel
"Unknown Title", the company differs from the sentinel "Unknown", and both
are non-empty after trimming whitespace — over every combination of field
values. -/
theorem C4_is_complete_iff (r : ExtractionResult) :
    r.is_complete = true ↔
      (r.title ≠ "Unknown Title" ∧ r.company ≠ "Unknown" ∧
        pyStrip r.title ≠ "" ∧ pyStrip r.company ≠ "") := by
  simp [ExtractionResult.is_complete, DEFAULT_TITLE, DEFAULT_COMPANY, and_assoc]

/-- Witness for C4: a populated result is complete, a sentinel-titled and
a whitespace-titled one are not. -/
theorem C4_is_complete_iff_witness :
    (ExtractionResult.mk "Engineer" "ACME" none none none "bs4").is_complete = true ∧
    (ExtractionResult.mk "Unknown Title" "ACME" none none none "bs4").is_complete ≠ true ∧
    (ExtractionResult.mk "  " "ACME" none none none "bs4").is_complete ≠ true :=
  ⟨(C4_is_complete_iff _).mpr (by decide),
   fun h => by
     have := ((C4_is_complete_iff _).mp h).1
     exact this rfl,
   fun h => by
     have := ((C4_is_complete_iff _).mp h).2.2.1
     exact this (by decide)⟩

/-- C5 counterexample: in `extract_job`'s option record the LLM-validation
flag defaults to enabled, refuting the claim that it defaults to
disabled. -/
theorem C5_counterexample : defaultExtractOptions.use_llm_validation = true := rfl

/-- C5 amended: every flag of `extract_job`'s option record — including
LLM validation — defaults to enabled; the disabled LLM-validation default
lives in the API service wrapper (`scrape_and_store_job` and the API
settings), not in the pipeline entry point. -/
theorem C5_amended :
    defaultExtractOptions = ExtractOptions.mk true true true true true ∧
    scraperDefaultOptions.use_llm_validation = false :=
  ⟨rfl, rfl⟩

/-- C8: the PII redaction step returns a result whose title, company,
location, salary and source are exactly those of the input; only the
description may differ. -/
theorem C8_redaction_frame (r : ExtractionResult) :
    (filter_pii_from_result r).title = r.title ∧
    (filter_pii_from_result r).company = r.company ∧
    (filter_pii_from_result r).location = r.location ∧
    (filter_pii_from_result r).salary = r.salary ∧
    (filter_pii_from_result r).source = r.source :=
  ⟨rfl, rfl, rfl, rfl, rfl⟩

/-- C6: the robots check fails open — `is_allowed` is `False` exactly when
robots.txt was fetched with status 200 and the parsed rules disallow the
agent; 404/410 responses, all other statuses, and transport errors all
yield `True`. -/
theorem C6_robots_fail_open (robots : String → RobotsFetch) (url user_agent : String) :
    robots_is_allowed robots url user_agent = false ↔
      ∃ rules, robots (get_robots_url url) = .resp 200 rules ∧
        rules.canFetch user_agent url = false := by
  unfold robots_is_allowed _fetch_robots_txt
  cases h : robots (get_robots_url url) with
  | exn => simp
  | resp status rules =>
      by_cases hs : status = 200
      · subst hs
        simp
      · simp [hs]

/-- Witness for C6: a 200 response whose rules deny everything blocks the
agent, while a 404 response and a transport error both allow it. -/
theorem C6_robots_fail_open_witness :
    robots_is_allowed (fun _ => .resp 200 denyAllRules) "https://example.com/a"
      ROBOTS_USER_AGENT = false ∧
    robots_is_allowed (fun _ => .resp 404 denyAllRules) "https://example.com/a"
      ROBOTS_USER_AGENT = true ∧
    robots_is_allowed (fun _ => .exn) "https://example.com/a"
      ROBOTS_USER_AGENT = true :=
  ⟨(C6_robots_fail_open _ _ _).mpr ⟨denyAllRules, rfl, rfl⟩, rfl, rfl⟩

/-- C3: for a URL failing the safety validator, or one the robots check
disallows while robots checking is enabled, `extract_job` returns a null
result whose metrics record confidence 0 and no fallbacks, and attempts no
page fetch. -/
theorem C3_terminal_failures (env : FetchEnv) (opts : ExtractOptions) (url : String)
    (h : _is_valid_url url = false ∨
      (opts.check_robots = true ∧
        robots_is_allowed env.robots url ROBOTS_USER_AGENT = false)) :
    ∃ m, (extract_job env opts url).outcome = .ok (none, m) ∧
      m.confidence = 0 ∧ m.fallbacks_used = 0 ∧
      (extract_job env opts url).pageFetches = 0 := by
  refine ⟨initMetrics, ?_, rfl, rfl, ?_⟩ <;>
    · rcases h with h | ⟨h1, h2⟩
      · simp [extract_job, h]
      · by_cases hv : _is_valid_url url <;> simp [extract_job, hv, h1, h2]

/-- Witness for C3: a non-http scheme fails the validator and a deny-all
robots.txt fails the compliance check; both short-circuit. -/
theorem C3_terminal_failures_witness :
    (_is_valid_url "ftp://example.com" = false ∧
      ∃ m, (extract_job envB defaultExtractOptions "ftp://example.com").outcome =
          .ok (none, m) ∧
        m.confidence = 0 ∧ m.fallbacks_used = 0 ∧
        (extract_job envB defaultExtractOptions "ftp://example.com").pageFetches = 0) ∧
    (robots_is_allowed envDeny.robots urlA ROBOTS_USER_AGENT = false ∧
      ∃ m, (extract_job envDeny defaultExtractOptions urlA).outcome = .ok (none, m) ∧
        m.confidence = 0 ∧ m.fallbacks_used = 0 ∧
        (extract_job envDeny defaultExtractOptions urlA).pageFetches = 0) :=
  ⟨⟨by decide, C3_terminal_failures _ _ _ (Or.inl (by decide))⟩,
   ⟨by decide, C3_terminal_failures _ _ _ (Or.inr ⟨rfl, by decide⟩)⟩⟩

/-- C1 (the code evaluated at Scenario A): because `pipeline.py` invokes
`extract_with_bs4(html, url)` with two arguments while the extractor takes
one, the call raises `TypeError` as soon as the primary fetch returns the
Scenario A page, so `extract_job` returns nothing; with the extractor
invoked as its signature and the repository's own integration test intend,
the run returns exactly the Scenario A fields with confidence 0.8, the
primary fetch method and the structured extraction method. -/
theorem C1_scenarioA :
    (extract_job envA optsA urlA).outcome = .error .typeError ∧
    (extract_job_intended envA optsA urlA).outcome =
      .ok (some resultA,
        { fetch_method := "requests", extraction_method := "bs4",
          validation_run := false, confidence := conf08, fallbacks_used := 0 }) :=
  ⟨by decide, by decide⟩

/-- C2 (the code evaluated at a failing input): whenever any fetch yields
content, the two-argument call `extract_with_bs4(html, url)` raises
`TypeError`, which nothing in `extract_job` catches — the caller observes
an exception, not one of the two documented outcomes.  With the intended
one-argument call the same run returns a result-with-metrics pair. -/
theorem C2_exception_escapes :
    (extract_job envB defaultExtractOptions urlB).outcome = .error .typeError ∧
    (extract_job_intended envB defaultExtractOptions urlB).outcome =
      .ok (some resultB,
        { fetch_method := "requests", extraction_method := "bs4",
          validation_run := false, confidence := conf03, fallbacks_used := 2 }) :=
  ⟨by decide, by decide⟩

/-- C7 counterexample: PII redaction is not idempotent — a second pass over
the already-redacted `"555-123-4567linkedin.com/in/x"` changes the text
again. -/
theorem C7_counterexample :
    filter_pii (filter_pii (some piiS0)) ≠ filter_pii (some piiS0) := by decide

/-- C7 amended: `filter_pii` is not idempotent.  A first pass over a phone
number directly followed by a LinkedIn URL replaces only the URL (the
adjoining letters suppress the phone pattern's trailing word boundary) and
the second pass replaces the then-exposed phone number; independently, the
line-handling step strips one trailing newline per pass.  The substitution
tokens themselves match no pattern: token-only text is a fixed point. -/
theorem C7_amended :
    filter_pii (some piiS0) = some piiS1 ∧
    filter_pii (some piiS1) = some piiS2 ∧
    piiS2 ≠ piiS1 ∧
    filter_pii (some "a\n\n") = some "a\n" ∧
    filter_pii (some "a\n") = some "a" ∧
    filter_pii (some piiTokens) = some piiTokens :=
  ⟨by decide, by decide, by decide, by decide, by decide, by decide⟩

/-- The truncation step never exceeds 10,000 characters. -/
theorem truncate10000_length (text : String) : (truncate10000 text).length ≤ 10000 := by
  unfold truncate10000
  split
  · exact List.length_take_le 10000 text.data
  · decide

/-- Every `_clean_description` output is within the cap. -/
theorem clean_description_length (text : String) :
    (_clean_description text).length ≤ 10000 :=
  truncate10000_length _

/-- `someIfNonEmpty` only ever returns its argument. -/
theorem someIfNonEmpty_eq {x d : String} (h : someIfNonEmpty x = some d) : d = x := by
  unfold someIfNonEmpty at h
  split at h
  · exact (Option.some.inj h).symm
  · exact absurd h (by simp)

/-- `someIfLong` only ever returns its argument. -/
theorem someIfLong_eq {x d : String} (h : someIfLong x = some d) : d = x := by
  unfold someIfLong at h
  split at h
  · exact (Option.some.inj h).symm
  · exact absurd h (by simp)

/-- Every description `_extract_description` produces is within the cap. -/
theorem extract_description_length (soup : Soup) (json_ld : Option Json) (d : String)
    (h : _extract_description soup json_ld = some d) : d.length ≤ 10000 := by
  unfold _extract_description at h
  split at h
  · -- Strategy 1: JSON-LD.
    rename_i d' hj
    injection h with h
    subst h
    unfold descFromJson at hj
    split at hj
    · split at hj
      · exact someIfNonEmpty_eq hj ▸ clean_description_length _
      · exact absurd hj (by simp)
    · exact absurd hj (by simp)
  · -- Strategies 2 and 3.
    split at h
    · -- Strategy 2: selectors.
      rename_i d' hs
      injection h with h
      subst h
      unfold descFromSelectors at hs
      obtain ⟨sel, -, hsel⟩ := List.exists_of_findSome?_eq_some hs
      split at hsel
      · exact someIfLong_eq hsel ▸ clean_description_length _
      · exact absurd hsel (by simp)
    · -- Strategy 3: trafilatura.
      unfold descFromTrafilatura at h
      split at h
      · split at h
        · injection h with h
          subst h
          exact clean_description_length _
        · exact absurd h (by simp)
      · exact absurd h (by simp)

/-- The structured extractor respects the description cap. -/
theorem bs4_descLenOk (soup : Soup) : descLenOk (extract_with_bs4 soup) = true := by
  unfold descLenOk extract_with_bs4
  cases h : _extract_description soup (_parse_json_ld soup) with
  | none => simp [h]
  | some d =>
      simp only [h]
      simpa using extract_description_length _ _ _ h

/-- C9: the structured (BS4) path always caps descriptions at 10,000
characters, but the LLM path never truncates: with the extractor call
repaired as the tests intend, an LLM response whose description has 10,001
characters flows through `extract_job` unshortened (the unrepaired code
instead raises before reaching the LLM stage). -/
theorem C9_description_cap_violated :
    (∀ soup : Soup, descLenOk (extract_with_bs4 soup) = true) ∧
    (∃ r m, (extract_job_intended envL optsL urlB).outcome = .ok (some r, m) ∧
      r.description = some longDescription) ∧
    longDescription.length = 10001 ∧
    (extract_job envL optsL urlB).outcome = .error .typeError :=
  ⟨bs4_descLenOk, ⟨_, _, rfl, rfl⟩,
   show (List.replicate 10001 'a').length = 10001 from List.length_replicate _ _,
   by decide⟩

/-- C10 counterexample: with validation enabled and a page fetched, the
pipeline as written returns no metrics at all (the two-argument extractor
call raises first); and with the extractor call repaired, a validator that
approves with confidence 1.5 drives the returned confidence to 1.5,
outside [0, 1] — the code never clamps the validator's value. -/
theorem C10_counterexample :
    (¬ ∃ r m, (extract_job envV optsV urlA).outcome = .ok (r, m)) ∧
    metricsConfidence (extract_job_intended envV optsV urlA) = some confThreeHalves := by
  constructor
  · rintro ⟨r, m, h⟩
    rw [show (extract_job envV optsV urlA).outcome = .error .typeError from by decide] at h
    exact absurd h (by simp)
  · decide

/-- C10 amended, part 1: every run of `extract_job` as written that
returns at all returns confidence 0 (the only returning paths are the two
terminal failures and the no-content path). -/
theorem extract_job_returned_confidence_zero (env : FetchEnv) (opts : ExtractOptions)
    (url : String) (r : Option ExtractionResult) (m : ExtractionMetrics)
    (h : (extract_job env opts url).outcome = .ok (r, m)) : m.confidence = 0 := by
  unfold extract_job at h
  split_ifs at h <;>
    first
    | (simp only [Except.ok.injEq, Prod.mk.injEq] at h
       obtain ⟨-, rfl⟩ := h
       rfl)
    | (cases hp : env.primary <;>
         cases hr : env.rendered <;>
           simp only [hp, hr, Except.ok.injEq, Prod.mk.injEq, reduceCtorEq] at h <;>
         (obtain ⟨-, rfl⟩ := h; rfl))

/-- Step 3 agrees with the spec's parse-stage table entry (score, best
result, and HTML availability). -/
theorem stage3_spec (env : FetchEnv) (opts : ExtractOptions) :
    (stage3 env opts).conf = (specAfterParse env opts).1 ∧
    (stage3 env opts).result = (specAfterParse env opts).2 ∧
    (stage3 env opts).html.isSome = specHtmlPresent env opts := by
  unfold stage3 specAfterParse specHtmlPresent primaryParse primaryConfidence
  cases hp : env.primary with
  | none =>
      cases hr : env.rendered with
      | none => by_cases hpw : opts.use_playwright <;> simp [optComplete, hpw]
      | some ph => by_cases hpw : opts.use_playwright <;> simp [optComplete, hpw]
  | some soup =>
      cases hc : (extract_with_bs4 soup).is_complete with
      | true => by_cases hpw : opts.use_playwright <;> simp [optComplete, hpw, hc]
      | false =>
          cases hr : env.rendered with
          | none => by_cases hpw : opts.use_playwright <;> simp [optComplete, hpw, hc]
          | some ph => by_cases hpw : opts.use_playwright <;> simp [optComplete, hpw, hc]

/-- Step 4 agrees with the spec's LLM-stage table entry. -/
theorem stage4_spec (env : FetchEnv) (opts : ExtractOptions) :
    ((stage4 env opts (stage3 env opts)).conf, (stage4 env opts (stage3 env opts)).result) =
      specAfterLLM env opts := by
  obtain ⟨h1, h2, h3⟩ := stage3_spec env opts
  rcases hsp : specAfterParse env opts with ⟨c, parsed⟩
  rw [hsp] at h1 h2
  unfold stage4 specAfterLLM
  rw [hsp, h1, h2, h3]
  dsimp only
  split_ifs with hcond
  · cases env.llm with
    | some lr => cases hlr : lr.is_complete <;> simp [hlr]
    | none => rfl
  · rfl

/-- Step 5 turns the LLM-stage table entry into the final table value. -/
theorem stage5_spec (env : FetchEnv) (opts : ExtractOptions) :
    (stage5conf env opts (stage4 env opts (stage3 env opts)).result
      (stage4 env opts (stage3 env opts)).conf).1 =
    (match specAfterLLM env opts with
     | (c, fr) =>
        if opts.use_llm_validation && optComplete fr then
          if env.validator.1 then max c env.validator.2 else min c conf04
        else c) := by
  have h4 := stage4_spec env opts
  rcases hll : specAfterLLM env opts with ⟨c, fr⟩
  rw [hll] at h4
  have hc : (stage4 env opts (stage3 env opts)).conf = c := congrArg Prod.fst h4
  have hr4 : (stage4 env opts (stage3 env opts)).result = fr := congrArg Prod.snd h4
  unfold stage5conf
  rw [hc, hr4]
  dsimp only
  split_ifs with hcond hval <;> rfl

/-- On a run whose consulted documents do not make the structured parser
raise, the intended pipeline's returned confidence is exactly the
spec-table value. -/
theorem intended_confidence_eq_table (env : FetchEnv) (opts : ExtractOptions) (url : String)
    (hsafe : intendedParseError env opts = none) :
    ∃ r m, (extract_job_intended env opts url).outcome = .ok (r, m) ∧
      m.confidence = specTableConfidence env opts url := by
  unfold extract_job_intended specTableConfidence
  by_cases hv : (!_is_valid_url url) = true
  · rw [if_pos hv, if_pos hv]
    exact ⟨none, initMetrics, rfl, rfl⟩
  · rw [if_neg hv, if_neg hv]
    by_cases hr : (opts.check_robots && !robots_is_allowed env.robots url ROBOTS_USER_AGENT) = true
    · rw [if_pos hr, if_pos hr]
      exact ⟨none, initMetrics, rfl, rfl⟩
    · rw [if_neg hr, if_neg hr, hsafe]
      refine ⟨_, _, rfl, ?_⟩
      show (stage5conf env opts (stage4 env opts (stage3 env opts)).result
        (stage4 env opts (stage3 env opts)).conf).1 = _
      exact stage5_spec env opts

/-- The parse-stage table entry lies in [0, 1]. -/
theorem specAfterParse_bounds (env : FetchEnv) (opts : ExtractOptions) :
    0 ≤ (specAfterParse env opts).1 ∧ (specAfterParse env opts).1 ≤ 1 := by
  unfold specAfterParse
  refine ⟨?_, ?_⟩ <;>
  · dsimp only
    split
    · dsimp only
      split <;> decide
    · split
      · dsimp only
        split <;> decide
      · dsimp only
        decide

/-- The LLM-stage table entry lies in [0, 1]. -/
theorem specAfterLLM_bounds (env : FetchEnv) (opts : ExtractOptions) :
    0 ≤ (specAfterLLM env opts).1 ∧ (specAfterLLM env opts).1 ≤ 1 := by
  have hb := specAfterParse_bounds env opts
  unfold specAfterLLM
  rcases hsp : specAfterParse env opts with ⟨c, parsed⟩
  rw [hsp] at hb
  dsimp only at hb ⊢
  split_ifs with hcond
  · cases env.llm with
    | some lr =>
        cases hlr : lr.is_complete
        · simpa [hlr] using hb
        · simp only [hlr, if_true]
          exact ⟨by decide, by decide⟩
    | none => exact hb
  · exact hb

/-- The table value lies in [0, 1] whenever the validator's reported
confidence is at most 1. -/
theorem specTable_bounds (env : FetchEnv) (opts : ExtractOptions) (url : String)
    (h1 : env.validator.2 ≤ 1) :
    0 ≤ specTableConfidence env opts url ∧ specTableConfidence env opts url ≤ 1 := by
  have hb := specAfterLLM_bounds env opts
  unfold specTableConfidence
  by_cases hv : (!_is_valid_url url) = true
  · rw [if_pos hv]
    exact ⟨le_refl 0, by decide⟩
  · rw [if_neg hv]
    by_cases hr : (opts.check_robots && !robots_is_allowed env.robots url ROBOTS_USER_AGENT) = true
    · rw [if_pos hr]
      exact ⟨le_refl 0, by decide⟩
    · rw [if_neg hr]
      rcases hll : specAfterLLM env opts with ⟨c, fr⟩
      rw [hll] at hb
      dsimp only at hb ⊢
      split_ifs with hcond hval
      · exact ⟨le_trans hb.1 (le_max_left _ _), max_le hb.2 h1⟩
      · exact ⟨le_min hb.1 (by decide), le_trans (min_le_left _ _) hb.2⟩
      · exact hb

/-- A JSON-LD `JobPosting` whose salary bounds are strings: the f-string
`f"{min_val:,}"` raises an uncaught `ValueError` on it. -/
def jsonCrash : Json := .obj [
  ("@type", .str "JobPosting"),
  ("title", .str "Engineer"),
  ("hiringOrganization", .obj [("name", .str "ACME")]),
  ("baseSalary", .obj [("currency", .str "USD"),
    ("value", .obj [("minValue", .str "150000"), ("maxValue", .str "200000")])])]

/-- A document carrying `jsonCrash`. -/
def soupCrash : Soup := { jsonLdScripts := [some jsonCrash] }

/-- An environment whose primary fetch returns the string-salaried
document. -/
def envCrash : FetchEnv := { primary := some soupCrash, rendered := none }

/-- A JSON-LD `JobPosting` whose place has a numeric address part: the
join `", ".join(p for p in parts if p)` raises an uncaught `TypeError` on
it. -/
def jsonCrashLoc : Json := .obj [
  ("@type", .str "JobPosting"),
  ("jobLocation", .obj [("address", .obj [("addressLocality", .num 94103)])])]

/-- An environment whose primary fetch returns the numeric-address
document. -/
def envCrashLoc : FetchEnv :=
  { primary := some { jsonLdScripts := [some jsonCrashLoc] }, rendered := none }

/-- The parse-stage raises are modelled, not collapsed: on the
string-salaried document the repaired pipeline raises the f-string
`ValueError`, on the numeric-address document the join `TypeError` — while
the pipeline as written raises the arity `TypeError` before either body
runs. -/
theorem intended_parse_raises :
    (extract_job_intended envCrash optsA urlA).outcome = .error .valueError ∧
    (extract_job_intended envCrashLoc optsA urlA).outcome = .error .typeError ∧
    (extract_job envCrash optsA urlA).outcome = .error .typeError :=
  ⟨by decide, by decide, by decide⟩

/-- C10 amended: the pipeline as written never returns metrics from the
parse/LLM/validation stages (those paths raise), and every metrics value
it does return has confidence 0, the table's terminal value; with the
extractor call repaired as intended, on every run whose consulted
documents do not make the structured parser itself raise
(`intendedParseError` — a string-valued salary bound raises an uncaught
`ValueError`, a non-string address part an uncaught `TypeError`, and
either exception escapes the repaired run too) the returned confidence
equals the §4.9 stage-table value for the path taken, and it lies within
[0, 1] provided the validator-reported confidence is at most 1 (the code
never clamps that value). -/
theorem C10_amended (env : FetchEnv) (opts : ExtractOptions) (url : String)
    (h1 : env.validator.2 ≤ 1) (hsafe : intendedParseError env opts = none) :
    (∀ r m, (extract_job env opts url).outcome = .ok (r, m) → m.confidence = 0) ∧
    (∃ r m, (extract_job_intended env opts url).outcome = .ok (r, m) ∧
      m.confidence = specTableConfidence env opts url ∧
      0 ≤ m.confidence ∧ m.confidence ≤ 1) := by
  refine ⟨fun r m h => extract_job_returned_confidence_zero env opts url r m h, ?_⟩
  obtain ⟨r, m, hout, hconf⟩ := intended_confidence_eq_table env opts url hsafe
  obtain ⟨hb0, hb1⟩ := specTable_bounds env opts url h1
  exact ⟨r, m, hout, hconf, hconf ▸ hb0, hconf ▸ hb1⟩

/-- Witness for C10 at a concrete crash-free run whose validator reports
0.5. -/
theorem C10_amended_witness :
    ∃ r m, (extract_job_intended envW defaultExtractOptions urlA).outcome = .ok (r, m) ∧
      m.confidence = specTableConfidence envW defaultExtractOptions urlA ∧
      0 ≤ m.confidence ∧ m.confidence ≤ 1 :=
  (C10_amended envW defaultExtractOptions urlA (by decide) (by decide)).2

end JobFlow
